import Mathlib

/-!
Verification of the meshtastic-message-relay core against its specification.

The Go source is shallowly embedded: byte streams become `List Nat` (each
element a byte value), machine integers become `Nat`/`Int` with explicit
wrap-around where it matters, pointers become `Option`, and fallible
operations return `Except`.

Sections:
* Stream framer (`pkg/meshtastic/framing.go`): `ReadPacket` / `WritePacket`.
* Protobuf decoder (`pkg/meshtastic`, hand-rolled parser): `decodeVarint`,
  `ParseFromRadio` and its sub-parsers, `FromRadio.ToPacket`.
* Relay service (`internal/relay/service.go`): `shouldRelay`, `relayLoop`,
  `sendToOutputs`, `Start`/`initOutputs`.
* Apprise sink (`internal/output/apprise.go`): `formatTitle`.
-/

namespace Meshtastic

/-! ## Stream framer (`pkg/meshtastic/framing.go`)

The framer keeps a 516-byte read buffer (`MaxPacketSize + HeaderSize`);
`readPos` is the number of buffered bytes.  We model the buffered prefix as
`buf : List Nat` and the not-yet-read part of the stream as
`stream : List Nat`.  The Go read loop repeatedly calls
`reader.Read(readBuffer[readPos:])`; we model the reader deterministically
as delivering everything it has, up to the space the caller offers
(`min (516 - buf.length) stream.length` bytes per call), so one top-up
either reaches the target number of buffered bytes or exhausts the stream.
If the stream is exhausted before the target is reached the read loop's
final `Read` reports an error (end of stream), which `ReadPacket` returns
while keeping the buffered bytes. -/

/-- `MaxPacketSize` from `framing.go`. -/
def MaxPacketSize : Nat := 512

/-- `HeaderSize` from `framing.go` (2 magic bytes + 2 length bytes). -/
def HeaderSize : Nat := 4

/-- Errors returned by the framer (`ErrInvalidMagic`, `ErrPacketTooLarge`)
plus the underlying reader's end-of-stream error. -/
inductive FrameError where
  | invalidMagic
  | packetTooLarge
  | readEOF
  deriving DecidableEq, Repr

/-- The read loops in `ReadPacket`: keep reading until `target` bytes are
buffered.  Returns the new buffer, the rest of the stream, and whether the
target was reached (`false` = the reader ran dry and returned an error). -/
def fillBuf (buf stream : List Nat) (target : Nat) : List Nat × List Nat × Bool :=
  if target ≤ buf.length then (buf, stream, true)
  else
    let k := min (MaxPacketSize + HeaderSize - buf.length) stream.length
    let buf2 := buf ++ stream.take k
    (buf2, stream.drop k, decide (target ≤ buf2.length))

/-- `StreamFramer.ReadPacket`: returns the result together with the new
buffered bytes and the new stream remainder.
* buffer header bytes with bad magic: discard one byte, `ErrInvalidMagic`;
* length field `> MaxPacketSize`: reset the buffer (`readPos = 0`),
  `ErrPacketTooLarge`;
* otherwise extract the payload `readBuffer[4 : 4+length]` and shift the
  remaining bytes to the front of the buffer. -/
def readPacketGo (buf stream : List Nat) :
    Except FrameError (List Nat) × List Nat × List Nat :=
  match fillBuf buf stream HeaderSize with
  | (buf1, s1, false) => (.error .readEOF, buf1, s1)
  | (buf1, s1, true) =>
    match buf1 with
    | b0 :: b1 :: b2 :: b3 :: _ =>
      if b0 = 0x94 ∧ b1 = 0xc3 then
        let length := b2 * 256 + b3
        if length > MaxPacketSize then
          (.error .packetTooLarge, [], s1)
        else
          let total := HeaderSize + length
          match fillBuf buf1 s1 total with
          | (buf2, s2, false) => (.error .readEOF, buf2, s2)
          | (buf2, s2, true) =>
            (.ok ((buf2.drop HeaderSize).take length), buf2.drop total, s2)
      else
        (.error .invalidMagic, buf1.drop 1, s1)
    | _ => (.error .readEOF, buf1, s1)

/-- The frame `WritePacket` emits: magic bytes `0x94 0xC3`, big-endian
16-bit length (`uint16(len(data))`), then the payload. -/
def framed (p : List Nat) : List Nat :=
  0x94 :: 0xc3 :: (p.length % 65536) / 256 :: p.length % 256 :: p

/-- `StreamFramer.WritePacket`: rejects oversized payloads, otherwise
writes the framed packet. -/
def writePacket (p : List Nat) : Except FrameError (List Nat) :=
  if p.length > MaxPacketSize then .error .packetTooLarge
  else .ok (framed p)

/-- `n` successive `ReadPacket` calls on a framer state; `none` if any
call fails. -/
def readSeq : Nat → List Nat → List Nat → Option (List (List Nat))
  | 0, _, _ => some []
  | n + 1, buf, stream =>
    match readPacketGo buf stream with
    | (.ok p, buf2, s2) => (readSeq n buf2 s2).map (p :: ·)
    | (.error _, _, _) => none

example : readPacketGo [] (framed [1, 2, 3]) = (.ok [1, 2, 3], [], []) := rfl
example : writePacket [7] = .ok [0x94, 0xc3, 0, 1, 7] := rfl
example : readSeq 2 [] (framed [1, 2] ++ framed [9]) = some [[1, 2], [9]] := rfl
example : readPacketGo [0, 0, 0, 4, 116, 101, 115, 116] [] =
    (.error .invalidMagic, [0, 0, 4, 116, 101, 115, 116], []) := rfl
example : readPacketGo [0x94, 0xc3, 2, 1, 5] [] = (.error .packetTooLarge, [], []) := rfl

lemma fillBuf_spec (buf stream : List Nat) (target : Nat)
    (ht : target ≤ MaxPacketSize + HeaderSize)
    (hlen : target ≤ buf.length + stream.length)
    (hbuf : buf.length ≤ MaxPacketSize + HeaderSize) :
    ∃ buf2 stream2, fillBuf buf stream target = (buf2, stream2, true) ∧
      buf2 ++ stream2 = buf ++ stream ∧ target ≤ buf2.length ∧
      buf2.length ≤ MaxPacketSize + HeaderSize := by
  by_cases h : target ≤ buf.length
  · exact ⟨buf, stream, by simp [fillBuf, h], rfl, h, hbuf⟩
  · refine ⟨buf ++ stream.take (min (MaxPacketSize + HeaderSize - buf.length) stream.length),
      stream.drop (min (MaxPacketSize + HeaderSize - buf.length) stream.length),
      ?_, by simp, ?_, ?_⟩
    · simp [fillBuf, h, List.length_take]
      omega
    · simp [List.length_take]
      omega
    · simp [List.length_take]
      omega

lemma framed_length (p : List Nat) : (framed p).length = HeaderSize + p.length := by
  simp [framed, HeaderSize]
  omega

/-- Reading from any framer state whose pending bytes are a well-formed frame
followed by anything returns exactly the framed payload and leaves exactly the
remainder pending. -/
lemma readPacketGo_frame (p rest buf stream : List Nat)
    (hp : p.length ≤ MaxPacketSize)
    (hsplit : buf ++ stream = framed p ++ rest)
    (hbuf : buf.length ≤ MaxPacketSize + HeaderSize) :
    ∃ buf2 stream2, readPacketGo buf stream = (.ok p, buf2, stream2) ∧
      buf2 ++ stream2 = rest ∧ buf2.length ≤ MaxPacketSize + HeaderSize := by
  have hlen_all : buf.length + stream.length = HeaderSize + p.length + rest.length := by
    have := congrArg List.length hsplit
    simpa [framed_length] using this
  have hsz : MaxPacketSize + HeaderSize = 516 := rfl
  have hH : HeaderSize = 4 := rfl
  obtain ⟨buf1, s1, hfill1, heq1, hlen1, hcap1⟩ :=
    fillBuf_spec buf stream HeaderSize (by omega) (by omega) hbuf
  have heq1' : buf1 ++ s1 = framed p ++ rest := heq1.trans hsplit
  -- the first four buffered bytes are the frame header
  have htake4 : buf1.take HeaderSize = (framed p ++ rest).take HeaderSize := by
    rw [← heq1', List.take_append_of_le_length hlen1]
  have hhdr : buf1.take HeaderSize =
      [0x94, 0xc3, (p.length % 65536) / 256, p.length % 256] := by
    rw [htake4]
    simp [framed, HeaderSize, List.take]
  obtain ⟨t1, hbuf1⟩ : ∃ t1, buf1 =
      0x94 :: 0xc3 :: (p.length % 65536) / 256 :: p.length % 256 :: t1 :=
    ⟨buf1.drop HeaderSize, by
      conv_lhs => rw [← List.take_append_drop HeaderSize buf1]
      rw [hhdr]; rfl⟩
  -- the decoded length is exactly `p.length`
  have hlenv : (p.length % 65536) / 256 * 256 + p.length % 256 = p.length := by
    have h1 : p.length % 65536 = p.length := Nat.mod_eq_of_lt (by
      have : MaxPacketSize = 512 := rfl
      omega)
    have h2 : p.length % 256 = p.length % 65536 % 256 := by rw [h1]
    rw [h2, h1]
    have := Nat.div_add_mod p.length 256
    omega
  have hlen1' : HeaderSize + p.length ≤ buf1.length + s1.length := by
    have h := congrArg List.length heq1'
    simp only [List.length_append, framed_length] at h
    omega
  subst hbuf1
  obtain ⟨buf2, s2, hfill2, heq2, hlen2, hcap2⟩ :=
    fillBuf_spec _ s1 (HeaderSize + p.length) (by omega) hlen1' hcap1
  have heq2' : buf2 ++ s2 = framed p ++ rest := heq2.trans heq1'
  -- the frame is a prefix of the filled buffer
  have hpre : buf2.take (HeaderSize + p.length) = framed p := by
    have h1 : (buf2 ++ s2).take (HeaderSize + p.length) = buf2.take (HeaderSize + p.length) :=
      List.take_append_of_le_length hlen2
    have h2 : (framed p ++ rest).take (HeaderSize + p.length) = framed p := by
      rw [← framed_length p]
      exact List.take_left _ _
    rw [← h1, heq2', h2]
  have hsplit2 : buf2 = framed p ++ buf2.drop (HeaderSize + p.length) := by
    conv_lhs => rw [← List.take_append_drop (HeaderSize + p.length) buf2]
    rw [hpre]
  have hul : buf2.length = HeaderSize + p.length + (buf2.drop (HeaderSize + p.length)).length := by
    have := congrArg List.length hsplit2
    simpa [framed_length] using this
  have hrest : buf2.drop (HeaderSize + p.length) ++ s2 = rest := by
    have : framed p ++ (buf2.drop (HeaderSize + p.length) ++ s2) = framed p ++ rest := by
      rw [← List.append_assoc, ← hsplit2, heq2']
    exact List.append_cancel_left this
  have hpay : (buf2.drop HeaderSize).take p.length = p := by
    have hdrop : (framed p ++ buf2.drop (HeaderSize + p.length)).drop HeaderSize =
        p ++ buf2.drop (HeaderSize + p.length) := rfl
    conv_lhs => rw [hsplit2, hdrop]
    exact List.take_left p _
  have hdt : buf2.drop (HeaderSize + (p.length % 65536) / 256 * 256 + p.length % 256) =
      buf2.drop (HeaderSize + p.length) := by
    congr 1
    omega
  refine ⟨buf2.drop (HeaderSize + p.length), s2, ?_, hrest, by omega⟩
  have hnl : ¬ ((p.length % 65536) / 256 * 256 + p.length % 256 > MaxPacketSize) := by omega
  simp only [readPacketGo, hfill1]
  rw [if_pos ⟨trivial, trivial⟩, if_neg hnl, hlenv, hfill2]
  simp [hpay]

lemma readSeq_spec (ps : List (List Nat)) (h : ∀ p ∈ ps, p.length ≤ MaxPacketSize) :
    ∀ buf stream, buf ++ stream = (ps.map framed).flatten →
      buf.length ≤ MaxPacketSize + HeaderSize →
      readSeq ps.length buf stream = some ps := by
  induction ps with
  | nil =>
    intro buf stream _ _
    simp [readSeq]
  | cons p ps ih =>
    intro buf stream hsplit hbuf
    have hp : p.length ≤ MaxPacketSize := h p (by simp)
    have hsplit' : buf ++ stream = framed p ++ (ps.map framed).flatten := by
      simpa using hsplit
    obtain ⟨buf2, s2, hread, hrest, hcap⟩ := readPacketGo_frame p _ buf stream hp hsplit' hbuf
    have := ih (fun q hq => h q (by simp [hq])) buf2 s2 hrest hcap
    simp [readSeq, hread, this]

/-- C1: for every byte sequence `p` with `|p| ≤ 512`, `WritePacket` succeeds
and emits the frame of `p`, and reading the resulting stream back returns
exactly `p`; more generally, for any list of such payloads written
back-to-back into one stream, successive `ReadPacket` calls return the
payloads in the order they were written. -/
theorem framer_write_read_roundtrip (ps : List (List Nat))
    (h : ∀ p ∈ ps, p.length ≤ MaxPacketSize) :
    (∀ p ∈ ps, writePacket p = .ok (framed p)) ∧
    readSeq ps.length [] ((ps.map framed).flatten) = some ps := by
  constructor
  · intro p hp
    have := h p hp
    unfold writePacket
    rw [if_neg (by omega)]
  · exact readSeq_spec ps h [] _ (by simp) (by simp [HeaderSize])

/-- Witness for C1 at the concrete payload list `[[1,2,3],[4,5]]`. -/
theorem framer_write_read_roundtrip_witness :
    (∀ p ∈ [[1, 2, 3], [4, 5]], List.length p ≤ MaxPacketSize) ∧
    ((∀ p ∈ [[1, 2, 3], [4, 5]], writePacket p = .ok (framed p)) ∧
      readSeq 2 [] (([[1, 2, 3], [4, 5]].map framed).flatten) = some [[1, 2, 3], [4, 5]]) := by
  refine ⟨by decide, ?_⟩
  have := framer_write_read_roundtrip [[1, 2, 3], [4, 5]] (by decide)
  simpa using this

/-- C5: when `ReadPacket` has a full header buffered whose first two bytes
are not the magic pair `0x94 0xC3`, it discards exactly the first buffered
byte (keeping the rest buffered and the stream untouched) and returns
`ErrInvalidMagic`; when the magic matches but the big-endian length field
exceeds 512, it clears the whole buffer (stream untouched) and returns
`ErrPacketTooLarge`. -/
theorem readPacket_header_error_handling (b0 b1 b2 b3 : Nat) (t stream : List Nat) :
    (¬(b0 = 0x94 ∧ b1 = 0xc3) →
      readPacketGo (b0 :: b1 :: b2 :: b3 :: t) stream =
        (.error .invalidMagic, b1 :: b2 :: b3 :: t, stream)) ∧
    (b0 = 0x94 → b1 = 0xc3 → b2 * 256 + b3 > MaxPacketSize →
      readPacketGo (b0 :: b1 :: b2 :: b3 :: t) stream =
        (.error .packetTooLarge, [], stream)) := by
  have hfill : fillBuf (b0 :: b1 :: b2 :: b3 :: t) stream HeaderSize =
      (b0 :: b1 :: b2 :: b3 :: t, stream, true) := by
    simp [fillBuf, HeaderSize]
  constructor
  · intro hmagic
    simp only [readPacketGo, hfill]
    rw [if_neg hmagic]
    rfl
  · intro h0 h1 hlarge
    subst h0
    subst h1
    simp only [readPacketGo, hfill]
    rw [if_pos ⟨trivial, trivial⟩, if_pos hlarge]

/-- Witness for C5: the spec's own corrupt header `00 00 00 04 't' 'e' 's' 't'`
slides one byte and reports `ErrInvalidMagic`; a correct magic pair with
length field 513 clears the buffer and reports `ErrPacketTooLarge`. -/
theorem readPacket_header_error_handling_witness :
    readPacketGo [0x00, 0x00, 0x00, 0x04, 116, 101, 115, 116] [] =
      (.error .invalidMagic, [0x00, 0x00, 0x04, 116, 101, 115, 116], []) ∧
    readPacketGo [0x94, 0xc3, 2, 1, 9] [] = (.error .packetTooLarge, [], []) :=
  ⟨(readPacket_header_error_handling 0x00 0x00 0x00 0x04 [116, 101, 115, 116] []).1
      (by decide),
    (readPacket_header_error_handling 0x94 0xc3 2 1 [9] []).2 rfl rfl (by decide)⟩

/-! ## Protobuf decoder (`pkg/meshtastic`, hand-rolled parser)

Bytes are `Nat`s; `uint32(v)` conversions become `v % 2^32`; `int32`
reinterpretation becomes `int32ofUint`.  Float fields (`RxSnr`,
`NodeInfo.Snr`) are kept in their pre-division / raw-bit integer form
(`RxSnrX4` holds the `int32` value that Go divides by 4.0, `SnrBits` holds
the raw IEEE-754 bits); no claim inspects their numeric float value.
Struct fields that no parser ever assigns are omitted. -/

/-- `ErrInvalidProtobuf` and `ErrUnsupportedType`. -/
inductive ParseError where
  | invalidProtobuf
  | unsupportedType
  deriving DecidableEq, Repr

/-- Reinterpret the low 32 bits of a value as Go `int32`. -/
def int32ofUint (val : Nat) : Int :=
  if val % 4294967296 < 2147483648 then (val % 4294967296 : Int)
  else (val % 4294967296 : Int) - 4294967296

/-- Little-endian `uint32` of four bytes (`binary.LittleEndian.Uint32`). -/
def leUint32 (b0 b1 b2 b3 : Nat) : Nat :=
  b0 + b1 * 256 + b2 * 65536 + b3 * 16777216

/-- The loop of `decodeVarint`: `shift`/`val` are the Go locals, `i` counts
consumed bytes.  Returns `(0, 0)` on truncated input or on 64-bit overflow,
exactly like the Go code. -/
def decodeVarintAux : List Nat → Nat → Nat → Nat → Nat × Nat
  | [], _, _, _ => (0, 0)
  | b :: rest, shift, val, i =>
    let val2 := val ||| ((b &&& 127) <<< shift) % 18446744073709551616
    if b &&& 128 = 0 then (val2, i + 1)
    else if shift + 7 ≥ 64 then (0, 0)
    else decodeVarintAux rest (shift + 7) val2 (i + 1)

/-- `decodeVarint`: value and number of bytes consumed. -/
def decodeVarint (data : List Nat) : Nat × Nat :=
  decodeVarintAux data 0 0 0

example : decodeVarint [0x00] = (0, 1) := rfl
example : decodeVarint [0x7f] = (127, 1) := rfl
example : decodeVarint [0xac, 0x02] = (300, 2) := rfl
example : decodeVarint [0x80, 0x80, 0x01] = (16384, 3) := rfl

/-- `Data` (decoded payload of a mesh packet); zero values as in Go. -/
structure Data where
  PortNum : Nat := 0
  Payload : List Nat := []
  WantResponse : Bool := false
  Dest : Nat := 0
  Source : Nat := 0
  RequestID : Nat := 0
  ReplyID : Nat := 0
  Emoji : Nat := 0
  deriving DecidableEq, Repr

/-- `Position` (fields assigned by `parsePosition`). -/
structure Position where
  LatitudeI : Int := 0
  LongitudeI : Int := 0
  Altitude : Int := 0
  Time : Nat := 0
  LocationSource : Nat := 0
  AltitudeSource : Nat := 0
  Timestamp : Nat := 0
  GroundSpeed : Nat := 0
  GroundTrack : Nat := 0
  SatsInView : Nat := 0
  deriving DecidableEq, Repr

/-- `User` (fields assigned by `parseUser`); Go strings are byte lists. -/
structure User where
  ID : List Nat := []
  LongName : List Nat := []
  ShortName : List Nat := []
  MacAddr : List Nat := []
  HwModel : Nat := 0
  IsLicensed : Bool := false
  Role : Nat := 0
  PublicKey : List Nat := []
  deriving DecidableEq, Repr

/-- `MyNodeInfo` (fields assigned by `parseMyNodeInfo`). -/
structure MyNodeInfo where
  MyNodeNum : Nat := 0
  RebootCount : Nat := 0
  MinAppVersion : Nat := 0
  deriving DecidableEq, Repr

/-- `NodeInfo` (fields assigned by `parseNodeInfo`); `SnrBits` keeps the
raw little-endian bits of the float32 `Snr`. -/
structure NodeInfo where
  Num : Nat := 0
  User : Option User := none
  Position : Option Position := none
  SnrBits : Nat := 0
  LastHeard : Nat := 0
  Channel : Nat := 0
  ViaMqtt : Bool := false
  Hops : Nat := 0
  IsFavorite : Bool := false
  deriving DecidableEq, Repr

/-- `MeshPacket`; `RxSnrX4` keeps the `int32` value that Go stores as
`float32(int32(val)) / 4.0`. -/
structure MeshPacket where
  From : Nat := 0
  To : Nat := 0
  Channel : Nat := 0
  ID : Nat := 0
  RxTime : Nat := 0
  RxSnrX4 : Int := 0
  RxRssi : Int := 0
  HopLimit : Nat := 0
  HopStart : Nat := 0
  WantAck : Bool := false
  Priority : Nat := 0
  Decoded : Option Data := none
  Encrypted : List Nat := []
  PublicKey : List Nat := []
  PkiEncrypted : Bool := false
  deriving DecidableEq, Repr

/-- `FromRadio` (fields assigned by `ParseFromRadio`). -/
structure FromRadio where
  ID : Nat := 0
  Packet : Option MeshPacket := none
  MyInfo : Option MyNodeInfo := none
  NodeInfo : Option NodeInfo := none
  ConfigCompleteID : Nat := 0
  Rebooted : Bool := false
  XmodemPacket : List Nat := []
  deriving DecidableEq, Repr

/-! Each parser loop consumes at least its tag byte per iteration, so a
fuel budget of the input length makes the Go `for pos < len(data)` loops
structurally recursive; the fuel-exhausted-with-input-left arm is
unreachable when the wrapper supplies `data.length`. -/

/-- The loop of `parseData`: each iteration consumes the tag byte and then
the field bytes; wire types other than 0 and 2 fall through the `switch`
consuming only the tag. -/
def parseDataLoop : Nat → Data → List Nat → Except ParseError Data
  | _, d, [] => .ok d
  | 0, _, _ :: _ => .error .invalidProtobuf
  | fuel + 1, d, tag :: rest =>
    let fieldNum := tag >>> 3
    let wireType := tag &&& 7
    if wireType = 0 then
      match decodeVarint rest with
      | (val, n) =>
        let rest2 := rest.drop n
        let d2 :=
          if fieldNum = 1 then { d with PortNum := val % 4294967296 }
          else if fieldNum = 3 then { d with WantResponse := val != 0 }
          else if fieldNum = 4 then { d with Dest := val % 4294967296 }
          else if fieldNum = 5 then { d with Source := val % 4294967296 }
          else if fieldNum = 6 then { d with RequestID := val % 4294967296 }
          else if fieldNum = 7 then { d with ReplyID := val % 4294967296 }
          else if fieldNum = 8 then { d with Emoji := val % 4294967296 }
          else d
        parseDataLoop fuel d2 rest2
    else if wireType = 2 then
      match decodeVarint rest with
      | (length, n) =>
        let rest2 := rest.drop n
        if length > rest2.length then .error .invalidProtobuf
        else
          let fieldData := rest2.take length
          let d2 := if fieldNum = 2 then { d with Payload := fieldData } else d
          parseDataLoop fuel d2 (rest2.drop length)
    else
      parseDataLoop fuel d rest

/-- `parseData`. -/
def parseData (data : List Nat) : Except ParseError Data :=
  parseDataLoop data.length {} data

/-- The loop of `parsePosition`; wire type 2 skips `length` bytes without a
bounds check, wire type 5 requires four bytes. -/
def parsePositionLoop : Nat → Position → List Nat → Except ParseError Position
  | _, p, [] => .ok p
  | 0, _, _ :: _ => .error .invalidProtobuf
  | fuel + 1, p, tag :: rest =>
    let fieldNum := tag >>> 3
    let wireType := tag &&& 7
    if wireType = 0 then
      match decodeVarint rest with
      | (val, n) =>
        let rest2 := rest.drop n
        let p2 :=
          if fieldNum = 4 then { p with Time := val % 4294967296 }
          else if fieldNum = 5 then { p with LocationSource := val % 4294967296 }
          else if fieldNum = 6 then { p with AltitudeSource := val % 4294967296 }
          else if fieldNum = 7 then { p with Timestamp := val % 4294967296 }
          else if fieldNum = 14 then { p with GroundSpeed := val % 4294967296 }
          else if fieldNum = 15 then { p with GroundTrack := val % 4294967296 }
          else if fieldNum = 20 then { p with SatsInView := val % 4294967296 }
          else p
        parsePositionLoop fuel p2 rest2
    else if wireType = 2 then
      match decodeVarint rest with
      | (length, n) => parsePositionLoop fuel p ((rest.drop n).drop length)
    else if wireType = 5 then
      match rest with
      | b0 :: b1 :: b2 :: b3 :: rest4 =>
        let val := int32ofUint (leUint32 b0 b1 b2 b3)
        let p2 :=
          if fieldNum = 1 then { p with LatitudeI := val }
          else if fieldNum = 2 then { p with LongitudeI := val }
          else if fieldNum = 3 then { p with Altitude := val }
          else p
        parsePositionLoop fuel p2 rest4
      | _ => .error .invalidProtobuf
    else
      parsePositionLoop fuel p rest

/-- `parsePosition`. -/
def parsePosition (data : List Nat) : Except ParseError Position :=
  parsePositionLoop data.length {} data

/-- The loop of `parseUser`. -/
def parseUserLoop : Nat → User → List Nat → Except ParseError User
  | _, u, [] => .ok u
  | 0, _, _ :: _ => .error .invalidProtobuf
  | fuel + 1, u, tag :: rest =>
    let fieldNum := tag >>> 3
    let wireType := tag &&& 7
    if wireType = 0 then
      match decodeVarint rest with
      | (val, n) =>
        let rest2 := rest.drop n
        let u2 :=
          if fieldNum = 5 then { u with HwModel := val % 4294967296 }
          else if fieldNum = 6 then { u with IsLicensed := val != 0 }
          else if fieldNum = 7 then { u with Role := val % 4294967296 }
          else u
        parseUserLoop fuel u2 rest2
    else if wireType = 2 then
      match decodeVarint rest with
      | (length, n) =>
        let rest2 := rest.drop n
        if length > rest2.length then .error .invalidProtobuf
        else
          let fieldData := rest2.take length
          let u2 :=
            if fieldNum = 1 then { u with ID := fieldData }
            else if fieldNum = 2 then { u with LongName := fieldData }
            else if fieldNum = 3 then { u with ShortName := fieldData }
            else if fieldNum = 4 then { u with MacAddr := fieldData }
            else if fieldNum = 8 then { u with PublicKey := fieldData }
            else u
          parseUserLoop fuel u2 (rest2.drop length)
    else
      parseUserLoop fuel u rest

/-- `parseUser`. -/
def parseUser (data : List Nat) : Except ParseError User :=
  parseUserLoop data.length {} data

/-- The loop of `parseMyNodeInfo`; its length-delimited case skips
`length` bytes without any bounds check ("Skip for now"). -/
def parseMyNodeInfoLoop : Nat → MyNodeInfo → List Nat → Except ParseError MyNodeInfo
  | _, info, [] => .ok info
  | 0, _, _ :: _ => .error .invalidProtobuf
  | fuel + 1, info, tag :: rest =>
    let fieldNum := tag >>> 3
    let wireType := tag &&& 7
    if wireType = 0 then
      match decodeVarint rest with
      | (val, n) =>
        let rest2 := rest.drop n
        let info2 :=
          if fieldNum = 1 then { info with MyNodeNum := val % 4294967296 }
          else if fieldNum = 8 then { info with RebootCount := val % 4294967296 }
          else if fieldNum = 11 then { info with MinAppVersion := val % 4294967296 }
          else info
        parseMyNodeInfoLoop fuel info2 rest2
    else if wireType = 2 then
      match decodeVarint rest with
      | (length, n) => parseMyNodeInfoLoop fuel info ((rest.drop n).drop length)
    else
      parseMyNodeInfoLoop fuel info rest

/-- `parseMyNodeInfo` (never fails, like the Go function). -/
def parseMyNodeInfo (data : List Nat) : Except ParseError MyNodeInfo :=
  parseMyNodeInfoLoop data.length {} data

/-- The loop of `parseNodeInfo`; nested `User`/`Position` failures
propagate. -/
def parseNodeInfoLoop : Nat → NodeInfo → List Nat → Except ParseError NodeInfo
  | _, info, [] => .ok info
  | 0, _, _ :: _ => .error .invalidProtobuf
  | fuel + 1, info, tag :: rest =>
    let fieldNum := tag >>> 3
    let wireType := tag &&& 7
    if wireType = 0 then
      match decodeVarint rest with
      | (val, n) =>
        let rest2 := rest.drop n
        let info2 :=
          if fieldNum = 1 then { info with Num := val % 4294967296 }
          else if fieldNum = 5 then { info with LastHeard := val % 4294967296 }
          else if fieldNum = 7 then { info with Channel := val % 4294967296 }
          else if fieldNum = 8 then { info with ViaMqtt := val != 0 }
          else if fieldNum = 9 then { info with Hops := val % 4294967296 }
          else if fieldNum = 10 then { info with IsFavorite := val != 0 }
          else info
        parseNodeInfoLoop fuel info2 rest2
    else if wireType = 2 then
      match decodeVarint rest with
      | (length, n) =>
        let rest2 := rest.drop n
        if length > rest2.length then .error .invalidProtobuf
        else
          let fieldData := rest2.take length
          if fieldNum = 2 then
            match parseUser fieldData with
            | .error e => .error e
            | .ok user =>
              parseNodeInfoLoop fuel { info with User := some user } (rest2.drop length)
          else if fieldNum = 3 then
            match parsePosition fieldData with
            | .error e => .error e
            | .ok position =>
              parseNodeInfoLoop fuel { info with Position := some position }
                (rest2.drop length)
          else
            parseNodeInfoLoop fuel info (rest2.drop length)
    else if wireType = 5 then
      match rest with
      | b0 :: b1 :: b2 :: b3 :: rest4 =>
        let val := leUint32 b0 b1 b2 b3
        let info2 := if fieldNum = 4 then { info with SnrBits := val } else info
        parseNodeInfoLoop fuel info2 rest4
      | _ => .error .invalidProtobuf
    else
      parseNodeInfoLoop fuel info rest

/-- `parseNodeInfo`. -/
def parseNodeInfo (data : List Nat) : Except ParseError NodeInfo :=
  parseNodeInfoLoop data.length {} data

/-- The loop of `parseMeshPacket`; wire types other than 0, 2 and 5 fall
through the `switch`, consuming only the tag byte. -/
def parseMeshPacketLoop : Nat → MeshPacket → List Nat → Except ParseError MeshPacket
  | _, mp, [] => .ok mp
  | 0, _, _ :: _ => .error .invalidProtobuf
  | fuel + 1, mp, tag :: rest =>
    let fieldNum := tag >>> 3
    let wireType := tag &&& 7
    if wireType = 0 then
      match decodeVarint rest with
      | (val, n) =>
        let rest2 := rest.drop n
        let mp2 :=
          if fieldNum = 1 then { mp with From := val % 4294967296 }
          else if fieldNum = 2 then { mp with To := val % 4294967296 }
          else if fieldNum = 3 then { mp with Channel := val % 4294967296 }
          else if fieldNum = 6 then { mp with ID := val % 4294967296 }
          else if fieldNum = 7 then { mp with RxTime := val % 4294967296 }
          else if fieldNum = 10 then { mp with HopLimit := val % 4294967296 }
          else if fieldNum = 11 then { mp with WantAck := val != 0 }
          else if fieldNum = 12 then { mp with Priority := val % 4294967296 }
          else if fieldNum = 13 then { mp with RxSnrX4 := int32ofUint val }
          else if fieldNum = 15 then { mp with HopStart := val % 4294967296 }
          else if fieldNum = 17 then { mp with PkiEncrypted := val != 0 }
          else mp
        parseMeshPacketLoop fuel mp2 rest2
    else if wireType = 2 then
      match decodeVarint rest with
      | (length, n) =>
        let rest2 := rest.drop n
        if length > rest2.length then .error .invalidProtobuf
        else
          let fieldData := rest2.take length
          if fieldNum = 4 then
            match parseData fieldData with
            | .error e => .error e
            | .ok decoded =>
              parseMeshPacketLoop fuel { mp with Decoded := some decoded }
                (rest2.drop length)
          else if fieldNum = 5 then
            parseMeshPacketLoop fuel { mp with Encrypted := fieldData } (rest2.drop length)
          else if fieldNum = 16 then
            parseMeshPacketLoop fuel { mp with PublicKey := fieldData } (rest2.drop length)
          else
            parseMeshPacketLoop fuel mp (rest2.drop length)
    else if wireType = 5 then
      match rest with
      | b0 :: b1 :: b2 :: b3 :: rest4 =>
        let val := leUint32 b0 b1 b2 b3
        let mp2 := if fieldNum = 14 then { mp with RxRssi := int32ofUint val } else mp
        parseMeshPacketLoop fuel mp2 rest4
      | _ => .error .invalidProtobuf
    else
      parseMeshPacketLoop fuel mp rest

/-- `parseMeshPacket`. -/
def parseMeshPacket (data : List Nat) : Except ParseError MeshPacket :=
  parseMeshPacketLoop data.length {} data

/-- The loop of `ParseFromRadio`; unlike every other parser in the file,
its `switch wireType` has a `default` arm that returns
`ErrUnsupportedType` for any wire type other than 0 and 2. -/
def ParseFromRadioLoop : Nat → FromRadio → List Nat → Except ParseError FromRadio
  | _, fr, [] => .ok fr
  | 0, _, _ :: _ => .error .invalidProtobuf
  | fuel + 1, fr, tag :: rest =>
    let fieldNum := tag >>> 3
    let wireType := tag &&& 7
    if wireType = 0 then
      match decodeVarint rest with
      | (val, n) =>
        let rest2 := rest.drop n
        let fr2 :=
          if fieldNum = 1 then { fr with ID := val % 4294967296 }
          else if fieldNum = 8 then { fr with ConfigCompleteID := val % 4294967296 }
          else if fieldNum = 9 then { fr with Rebooted := val != 0 }
          else fr
        ParseFromRadioLoop fuel fr2 rest2
    else if wireType = 2 then
      match decodeVarint rest with
      | (length, n) =>
        let rest2 := rest.drop n
        if length > rest2.length then .error .invalidProtobuf
        else
          let fieldData := rest2.take length
          if fieldNum = 2 then
            match parseMeshPacket fieldData with
            | .error e => .error e
            | .ok packet =>
              ParseFromRadioLoop fuel { fr with Packet := some packet } (rest2.drop length)
          else if fieldNum = 3 then
            match parseMyNodeInfo fieldData with
            | .error e => .error e
            | .ok myInfo =>
              ParseFromRadioLoop fuel { fr with MyInfo := some myInfo } (rest2.drop length)
          else if fieldNum = 4 then
            match parseNodeInfo fieldData with
            | .error e => .error e
            | .ok nodeInfo =>
              ParseFromRadioLoop fuel { fr with NodeInfo := some nodeInfo }
                (rest2.drop length)
          else if fieldNum = 11 then
            ParseFromRadioLoop fuel { fr with XmodemPacket := fieldData } (rest2.drop length)
          else
            ParseFromRadioLoop fuel fr (rest2.drop length)
    else
      .error .unsupportedType

/-- `ParseFromRadio`: rejects inputs shorter than 2 bytes, then runs the
field loop. -/
def ParseFromRadio (data : List Nat) : Except ParseError FromRadio :=
  if data.length < 2 then .error .invalidProtobuf
  else ParseFromRadioLoop data.length {} data

example : ParseFromRadio [] = .error .invalidProtobuf := rfl
example : ParseFromRadio [0x08] = .error .invalidProtobuf := rfl
-- id=100, config_complete_id=1 (spec §8 round-trip vector)
example : ParseFromRadio [0x08, 100, 0x40, 0x01] =
    .ok { ID := 100, ConfigCompleteID := 1 } := rfl

/-! ## `FromRadio.ToPacket` (internal packet conversion) -/

/-- `PortNumTextMessageApp`. -/
def PortNumTextMessageApp : Nat := 1

/-- `PortNumPositionApp`. -/
def PortNumPositionApp : Nat := 3

/-- The `interface{}` payload of the internal `Packet`: `nil`,
`*TextMessage` (its UTF-8 bytes), `*Position`, or raw `[]byte`. -/
inductive PacketPayload where
  | none
  | text (bytes : List Nat)
  | position (pos : Position)
  | raw (bytes : List Nat)
  deriving DecidableEq, Repr

/-- The internal `Packet` produced by `ToPacket`.  `ReceivedAt` is epoch
seconds; `none` is the zero `time.Time`.  `SNRX4` mirrors `MeshPacket`'s
`RxSnrX4` (the float is that value divided by 4). -/
structure Packet where
  ID : Nat := 0
  From : Nat := 0
  To : Nat := 0
  Channel : Nat := 0
  PortNum : Nat := 0
  Payload : PacketPayload := .none
  RawPayload : List Nat := []
  SNRX4 : Int := 0
  RSSI : Int := 0
  HopLimit : Nat := 0
  WantAck : Bool := false
  ReceivedAt : Option Nat := none
  FromNode : Option NodeInfo := none
  deriving DecidableEq, Repr

/-- `FromRadio.ToPacket`; `now` is the wall-clock `time.Now()` at ingest
(in epoch seconds).  Returns `none` when the frame carries no packet. -/
def FromRadio.ToPacket (fr : FromRadio) (now : Nat) : Option Meshtastic.Packet :=
  match fr.Packet with
  | Option.none => Option.none
  | some mp =>
    let p : Meshtastic.Packet := {
      ID := mp.ID, From := mp.From, To := mp.To, Channel := mp.Channel,
      SNRX4 := mp.RxSnrX4, RSSI := mp.RxRssi, HopLimit := mp.HopLimit,
      WantAck := mp.WantAck, ReceivedAt := some now }
    let p := if mp.RxTime > 0 then { p with ReceivedAt := some mp.RxTime } else p
    let p :=
      match mp.Decoded with
      | Option.none => p
      | some d =>
        let p := { p with PortNum := d.PortNum, RawPayload := d.Payload }
        if d.PortNum = PortNumTextMessageApp then
          { p with Payload := .text d.Payload }
        else if d.PortNum = PortNumPositionApp then
          match parsePosition d.Payload with
          | .ok pos => { p with Payload := .position pos }
          | .error _ => p
        else
          { p with Payload := .raw d.Payload }
    some p

-- spec §8 mesh-packet vector: from=0x11111111, to=0xFFFFFFFF, id=12345,
-- Data{port=1, payload="Hello World"} decodes to a Text payload
example :
    (ParseFromRadio ([0x12, 0x20,
        0x08, 0x91, 0xa2, 0xc4, 0x88, 0x01,
        0x10, 0xff, 0xff, 0xff, 0xff, 0x0f,
        0x30, 0xb9, 0x60,
        0x22, 0x0f, 0x08, 0x01, 0x12, 0x0b,
        72, 101, 108, 108, 111, 32, 87, 111, 114, 108, 100])).toOption.bind
      (fun fr => (fr.ToPacket 0).map Packet.Payload) =
    some (.text [72, 101, 108, 108, 111, 32, 87, 111, 114, 108, 100]) := rfl

/-- C10: `ParseFromRadio` rejects every input shorter than two bytes with
`ErrInvalidProtobuf` — including the empty byte sequence, which is the
valid all-defaults `FromRadio` encoding. -/
theorem parseFromRadio_short_input (data : List Nat) (h : data.length < 2) :
    ParseFromRadio data = .error .invalidProtobuf := by
  simp [ParseFromRadio, h]

/-- Witness for C10 at the empty input. -/
theorem parseFromRadio_short_input_witness :
    ([] : List Nat).length < 2 ∧ ParseFromRadio [] = .error .invalidProtobuf :=
  ⟨by decide, parseFromRadio_short_input [] (by decide)⟩

/-- C4 (code bug): the Go comment says "Skip unknown wire types", but
`ParseFromRadio` returns `ErrUnsupportedType` instead of skipping.  At an
unknown field with a 32-bit wire type (tag `0x2D`: field 5, wire type 5)
or a 64-bit wire type (tag `0x29`: field 5, wire type 1) the decode fails
instead of succeeding. -/
theorem parseFromRadio_unknown_wiretype_rejected :
    ParseFromRadio [0x2d, 0x00, 0x00, 0x00, 0x00] = .error .unsupportedType ∧
    ParseFromRadio [0x29, 0x00, 0x00, 0x00, 0x00, 0x00, 0x00, 0x00, 0x00] =
      .error .unsupportedType :=
  ⟨rfl, rfl⟩

/-- C7: every packet emitted by `ToPacket` carries a set (non-nil) receive
timestamp: the radio's `rx_time` when it is positive, otherwise the
wall-clock time at ingest. -/
theorem toPacket_receivedAt (fr : FromRadio) (mp : MeshPacket) (now : Nat)
    (h : fr.Packet = some mp) :
    ∃ p, fr.ToPacket now = some p ∧
      p.ReceivedAt = some (if mp.RxTime > 0 then mp.RxTime else now) := by
  simp only [FromRadio.ToPacket, h]
  refine ⟨_, rfl, ?_⟩
  rcases hdec : mp.Decoded with _ | d
  · by_cases hrx : mp.RxTime > 0 <;> simp [hrx]
  · by_cases hrx : mp.RxTime > 0 <;>
      by_cases h1 : d.PortNum = PortNumTextMessageApp <;>
      by_cases h3 : d.PortNum = PortNumPositionApp <;>
      rcases hpp : parsePosition d.Payload with e | pos <;>
      simp [hrx, h1, h3, hpp] <;> split <;> rfl

/-- Witness for C7: one packet with `rx_time = 5` (timestamp 5) and one
with `rx_time = 0` (timestamp = the ingest clock 77). -/
theorem toPacket_receivedAt_witness :
    (∃ p, ({ Packet := some { RxTime := 5 } } : FromRadio).ToPacket 77 = some p ∧
      p.ReceivedAt = some (if ({ RxTime := 5 } : MeshPacket).RxTime > 0
        then ({ RxTime := 5 } : MeshPacket).RxTime else 77)) ∧
    (∃ p, ({ Packet := some {} } : FromRadio).ToPacket 77 = some p ∧
      p.ReceivedAt = some (if ({} : MeshPacket).RxTime > 0
        then ({} : MeshPacket).RxTime else 77)) :=
  ⟨toPacket_receivedAt _ _ 77 rfl, toPacket_receivedAt _ _ 77 rfl⟩

/-- C6 (amended): for a decoded `MeshPacket`, `ToPacket` copies the port
and raw bytes, and specializes the payload: port 1 (TextMessage) gives a
Text payload over the raw bytes; port 3 (Position) decodes the raw bytes a
second time as a `Position` and uses it when that decode succeeds, leaving
the payload unset when it fails; every other port keeps the raw bytes. -/
theorem toPacket_payload_specialization (fr : FromRadio) (mp : MeshPacket) (d : Data)
    (now : Nat) (h : fr.Packet = some mp) (hd : mp.Decoded = some d) :
    ∃ p, fr.ToPacket now = some p ∧ p.PortNum = d.PortNum ∧
      p.RawPayload = d.Payload ∧
      p.Payload =
        (if d.PortNum = PortNumTextMessageApp then PacketPayload.text d.Payload
         else if d.PortNum = PortNumPositionApp then
           (match parsePosition d.Payload with
            | .ok pos => PacketPayload.position pos
            | .error _ => PacketPayload.none)
         else PacketPayload.raw d.Payload) := by
  simp only [FromRadio.ToPacket, h, hd]
  refine ⟨_, rfl, ?_⟩
  by_cases hrx : mp.RxTime > 0 <;>
    by_cases h1 : d.PortNum = PortNumTextMessageApp <;>
    by_cases h3 : d.PortNum = PortNumPositionApp <;>
    rcases hpp : parsePosition d.Payload with e | pos <;>
    simp [hrx, h1, h3, hpp] <;>
    simp [PortNumTextMessageApp, PortNumPositionApp] at h1 h3 ⊢

/-- Witness for C6 (amended) at the spec's own text-message vector. -/
theorem toPacket_payload_specialization_witness :
    ∃ p, ({ Packet := some { Decoded := some { PortNum := 1, Payload := [72, 105] } } }
        : FromRadio).ToPacket 0 = some p ∧
      p.PortNum = ({ PortNum := 1, Payload := [72, 105] } : Data).PortNum ∧
      p.RawPayload = ({ PortNum := 1, Payload := [72, 105] } : Data).Payload ∧
      p.Payload =
        (if ({ PortNum := 1, Payload := [72, 105] } : Data).PortNum = PortNumTextMessageApp
         then PacketPayload.text ({ PortNum := 1, Payload := [72, 105] } : Data).Payload
         else if ({ PortNum := 1, Payload := [72, 105] } : Data).PortNum = PortNumPositionApp
         then
           (match parsePosition ({ PortNum := 1, Payload := [72, 105] } : Data).Payload with
            | .ok pos => PacketPayload.position pos
            | .error _ => PacketPayload.none)
         else PacketPayload.raw ({ PortNum := 1, Payload := [72, 105] } : Data).Payload) :=
  toPacket_payload_specialization _ _ _ 0 rfl rfl

/-- Counterexample for C6 as stated: a wire-level `FromRadio` whose mesh
packet is a port-3 (Position) message with payload `[0x0D]`; the second
decode of those bytes fails, so the emitted packet's payload is left unset
— it does not "become a Position message". -/
theorem toPacket_position_decode_failure :
    (ParseFromRadio [0x12, 0x07, 0x22, 0x05, 0x08, 0x03, 0x12, 0x01, 0x0d]).toOption.bind
        (fun fr => (fr.ToPacket 0).map Packet.Payload) = some PacketPayload.none ∧
    parsePosition [0x0d] = .error .invalidProtobuf :=
  ⟨rfl, rfl⟩

end Meshtastic

namespace Relay

/-! ## Relay side (`internal/message`, `internal/config`,
`internal/relay/service.go`, `internal/output/apprise.go`)

`message.Packet` fields not consulted by `shouldRelay`, the relay loop or
`formatTitle` (payload, SNR, timestamps, …) are omitted.  Go strings here
are Lean `String`s. -/

/-- `message.User` (string fields only, as used by `formatTitle`). -/
structure User where
  ID : String := ""
  LongName : String := ""
  ShortName : String := ""
  HWModel : String := ""
  deriving DecidableEq, Repr

/-- `message.NodeInfo` (fields used by the modelled functions). -/
structure NodeInfo where
  Num : Nat := 0
  User : Option User := none
  deriving DecidableEq, Repr

/-- `message.Packet` (fields used by the modelled functions);
`PortNum` is Go `int32`. -/
structure Packet where
  ID : Nat := 0
  From : Nat := 0
  To : Nat := 0
  Channel : Nat := 0
  PortNum : Int := 0
  FromNode : Option NodeInfo := none
  deriving DecidableEq, Repr

/-- `message.PortNum.String()` (the `switch` in `internal/message/types.go`). -/
def PortNumString (p : Int) : String :=
  match p with
  | 1 => "TEXT_MESSAGE_APP"
  | 3 => "POSITION_APP"
  | 4 => "NODEINFO_APP"
  | 5 => "ROUTING_APP"
  | 8 => "WAYPOINT_APP"
  | 67 => "TELEMETRY_APP"
  | 70 => "TRACEROUTE_APP"
  | 71 => "NEIGHBORINFO_APP"
  | _ => "UNKNOWN_APP"

/-- `config.FilterConfig`. -/
structure FilterConfig where
  MessageTypes : List String := []
  NodeIDs : List Nat := []
  Channels : List Nat := []
  deriving DecidableEq, Repr

/-- `Service.shouldRelay`: each non-empty filter dimension scans its list
for a match (`found` loop) and rejects when none is found. -/
def shouldRelay (filters : FilterConfig) (msg : Packet) : Bool :=
  if filters.MessageTypes.length > 0 &&
      !(filters.MessageTypes.any (fun t => t == PortNumString msg.PortNum)) then false
  else if filters.NodeIDs.length > 0 &&
      !(filters.NodeIDs.any (fun id => id == msg.From)) then false
  else if filters.Channels.length > 0 &&
      !(filters.Channels.any (fun ch => ch == msg.Channel)) then false
  else true

example : shouldRelay { MessageTypes := ["TEXT_MESSAGE_APP"] } { PortNum := 3 } = false := rfl
example : shouldRelay { MessageTypes := ["TEXT_MESSAGE_APP"] } { PortNum := 1 } = true := rfl
example : shouldRelay { NodeIDs := [0xAA] } { From := 0xBB } = false := rfl
example : shouldRelay {} { PortNum := 42, From := 7, Channel := 9 } = true := rfl

lemma filterDim_pass {α : Type} [BEq α] [LawfulBEq α] (l : List α) (x : α) :
    ((l.length > 0 && !(l.any fun t => t == x)) = false) ↔ (l = [] ∨ x ∈ l) := by
  cases l with
  | nil => simp
  | cons a l =>
    simp [List.any_eq_true]
    constructor
    · intro h
      by_cases hax : a = x
      · exact Or.inl hax.symm
      · exact Or.inr (h hax)
    · intro h hax
      rcases h with h | h
      · exact absurd h.symm hax
      · exact h

/-- C2: the filter accepts a packet iff all three dimensions pass: each of
`message_types` / `node_ids` / `channels` is either empty or contains the
packet's stringified port / sender / channel; an empty list never rejects. -/
theorem shouldRelay_iff (filters : FilterConfig) (msg : Packet) :
    shouldRelay filters msg = true ↔
      ((filters.MessageTypes = [] ∨ PortNumString msg.PortNum ∈ filters.MessageTypes) ∧
       (filters.NodeIDs = [] ∨ msg.From ∈ filters.NodeIDs) ∧
       (filters.Channels = [] ∨ msg.Channel ∈ filters.Channels)) := by
  have hsplit : ∀ b x : Bool, ((if b = true then false else x) = true) ↔ (b = false ∧ x = true) := by
    decide
  simp only [shouldRelay, hsplit]
  rw [filterDim_pass, filterDim_pass, filterDim_pass]
  simp

/-- `relay.Stats` (all counters start at zero). -/
structure Stats where
  MessagesReceived : Nat := 0
  MessagesSent : Nat := 0
  MessagesFiltered : Nat := 0
  Errors : Nat := 0
  deriving DecidableEq, Repr

/-- A sink's `Send` as observed by the relay loop: `true` when the send
returns no error for the given packet. -/
def Output := Packet → Bool

/-- `Service.sendToOutputs`: iterate over all outputs in order; count a
success in `MessagesSent` and a failure in `Errors`, never stopping. -/
def sendToOutputs (outputs : List Output) (msg : Packet) (stats : Stats) : Stats :=
  outputs.foldl
    (fun st out =>
      if out msg then { st with MessagesSent := st.MessagesSent + 1 }
      else { st with Errors := st.Errors + 1 })
    stats

/-- `Service.relayLoop` over the finite sequence of packets the channel
delivers before it closes (or the context is cancelled): count the packet
as received; if the filter rejects it count it as filtered and continue;
otherwise fan it out to every output. -/
def relayLoop (filters : FilterConfig) (outputs : List Output)
    (msgs : List Packet) (stats : Stats) : Stats :=
  match msgs with
  | [] => stats
  | msg :: rest =>
    let st1 := { stats with MessagesReceived := stats.MessagesReceived + 1 }
    if ¬ shouldRelay filters msg then
      relayLoop filters outputs rest
        { st1 with MessagesFiltered := st1.MessagesFiltered + 1 }
    else
      relayLoop filters outputs rest (sendToOutputs outputs msg st1)

/-- One pass of `sendToOutputs` over the two-sink list `[A, B]` where `A`
succeeds and `B` fails: one success and one error, in either order. -/
lemma sendToOutputs_ok_fail (A B : Output) (hA : ∀ m, A m = true)
    (hB : ∀ m, B m = false) (msg : Packet) (st : Stats) :
    sendToOutputs [A, B] msg st =
      { st with MessagesSent := st.MessagesSent + 1, Errors := st.Errors + 1 } ∧
    sendToOutputs [B, A] msg st =
      { st with MessagesSent := st.MessagesSent + 1, Errors := st.Errors + 1 } := by
  constructor <;> simp [sendToOutputs, hA msg, hB msg]

lemma relayLoop_accepted_stats (filters : FilterConfig) (outputs : List Output)
    (hsend : ∀ msg st, sendToOutputs outputs msg st =
      { st with MessagesSent := st.MessagesSent + 1, Errors := st.Errors + 1 }) :
    ∀ msgs, (∀ m ∈ msgs, shouldRelay filters m = true) → ∀ st,
      relayLoop filters outputs msgs st =
        { st with MessagesReceived := st.MessagesReceived + msgs.length,
                  MessagesSent := st.MessagesSent + msgs.length,
                  Errors := st.Errors + msgs.length } := by
  intro msgs
  induction msgs with
  | nil => intro _ st; simp [relayLoop]
  | cons m rest ih =>
    intro hpass st
    have hm : shouldRelay filters m = true := hpass m (by simp)
    have hrest : ∀ x ∈ rest, shouldRelay filters x = true :=
      fun x hx => hpass x (by simp [hx])
    simp only [relayLoop, hm, not_true_eq_false, if_neg, ite_false]
    rw [hsend, ih hrest]
    simp [Stats.mk.injEq]
    omega

/-- C3: with every packet passing the filter and exactly two enabled sinks
— one that always succeeds and one that always fails (in either order) —
relaying N packets yields received = N, sent = N, filtered = 0,
errors = N: the failing sink neither stops the loop nor keeps the
succeeding sink from receiving every packet. -/
theorem relayLoop_two_sinks (filters : FilterConfig) (A B : Output)
    (hA : ∀ m, A m = true) (hB : ∀ m, B m = false)
    (msgs : List Packet) (hpass : ∀ m ∈ msgs, shouldRelay filters m = true) :
    relayLoop filters [A, B] msgs {} =
      { MessagesReceived := msgs.length, MessagesSent := msgs.length,
        MessagesFiltered := 0, Errors := msgs.length } ∧
    relayLoop filters [B, A] msgs {} =
      { MessagesReceived := msgs.length, MessagesSent := msgs.length,
        MessagesFiltered := 0, Errors := msgs.length } := by
  constructor
  · rw [relayLoop_accepted_stats filters [A, B]
      (fun msg st => (sendToOutputs_ok_fail A B hA hB msg st).1) msgs hpass {}]
    simp
  · rw [relayLoop_accepted_stats filters [B, A]
      (fun msg st => (sendToOutputs_ok_fail A B hA hB msg st).2) msgs hpass {}]
    simp

/-- Witness for C3: two concrete packets through a constant-success and a
constant-failure sink under the empty filter. -/
theorem relayLoop_two_sinks_witness :
    relayLoop {} [fun _ => true, fun _ => false] [{ ID := 1 }, { ID := 2 }] {} =
      { MessagesReceived := 2, MessagesSent := 2,
        MessagesFiltered := 0, Errors := 2 } ∧
    relayLoop {} [fun _ => false, fun _ => true] [{ ID := 1 }, { ID := 2 }] {} =
      { MessagesReceived := 2, MessagesSent := 2,
        MessagesFiltered := 0, Errors := 2 } := by
  have h := relayLoop_two_sinks {} (fun _ => true) (fun _ => false)
    (fun _ => rfl) (fun _ => rfl) [{ ID := 1 }, { ID := 2 }] (fun m _ => rfl)
  simpa using h

/-! ## `Service.Start` lifecycle (`internal/relay/service.go`)

An output config is abstracted to whether it is enabled and whether
`output.New` succeeds for it; constructed sinks are identified by their
config index.  The service state tracks the `running` flag, the `s.outputs`
slice, and which constructed sinks have not been closed. -/

/-- One entry of `config.Outputs` as `Start` observes it. -/
structure OutCfg where
  Enabled : Bool
  BuildOk : Bool
  deriving DecidableEq, Repr

/-- Environment of one `Start` call: the output configs, whether
`connection.New` succeeds, and whether `Connect` succeeds. -/
structure StartEnv where
  outputCfgs : List OutCfg
  connNewOk : Bool
  connectOk : Bool
  deriving DecidableEq, Repr

/-- Relay service state observed by `Start`/`Stop`. -/
structure SvcState where
  running : Bool := false
  outputs : List Nat := []
  openSinks : List Nat := []
  deriving DecidableEq, Repr

/-- Errors surfaced by `Start`. -/
inductive StartError where
  | alreadyRunning
  | outputsInit
  | connInit
  | connectFail
  deriving DecidableEq, Repr

/-- The loop of `Service.initOutputs`: skip disabled configs, append each
constructed output, abort on the first construction failure (leaving the
already-appended outputs in place), and fail if no output was enabled. -/
def initOutputsAux : Nat → List OutCfg → List Nat → List Nat × Bool
  | _, [], acc => if acc.isEmpty then (acc, false) else (acc, true)
  | i, c :: rest, acc =>
    if ¬ c.Enabled then initOutputsAux (i + 1) rest acc
    else if c.BuildOk then initOutputsAux (i + 1) rest (acc ++ [i])
    else (acc, false)

/-- `Service.initOutputs`: the constructed outputs (`s.outputs`) and
whether initialisation succeeded. -/
def initOutputsRun (cfgs : List OutCfg) : List Nat × Bool :=
  initOutputsAux 0 cfgs []

/-- `Service.Start`: error when already running, otherwise set `running`,
build the outputs (failure aborts without closing anything), build the
connection and connect (failure closes the built outputs), then spawn the
relay loop.  No failure path resets the `running` flag. -/
def startGo (env : StartEnv) (st : SvcState) : Except StartError Unit × SvcState :=
  if st.running then (.error .alreadyRunning, st)
  else
    let st1 : SvcState := { st with running := true }
    match initOutputsRun env.outputCfgs with
    | (built, false) =>
      (.error .outputsInit, { st1 with outputs := built, openSinks := built })
    | (built, true) =>
      let st2 : SvcState := { st1 with outputs := built, openSinks := built }
      if ¬ env.connNewOk then (.error .connInit, { st2 with openSinks := [] })
      else if ¬ env.connectOk then (.error .connectFail, { st2 with openSinks := [] })
      else (.ok (), st2)

/-- Counterexample for C8 as stated: two enabled output configs, the first
constructing fine and the second failing.  `Start` returns the
output-initialisation error but leaves the first sink open (`openSinks =
[0]`, not closed) and leaves the service marked running. -/
theorem start_outputs_failure_state :
    startGo
      { outputCfgs := [{ Enabled := true, BuildOk := true },
          { Enabled := true, BuildOk := false }]
        connNewOk := true
        connectOk := true } {} =
      (.error .outputsInit, { running := true, outputs := [0], openSinks := [0] }) :=
  rfl

/-- C8 (amended): `Start` errors when already running (state untouched);
a sink-construction failure aborts with the previously-built sinks left
open; a connection-construction or connect failure closes the built sinks
before returning; and every failure path leaves the `running` flag set, so
the service still reports running after a failed start. -/
theorem startGo_spec (env : StartEnv) (st : SvcState) :
    (st.running = true → startGo env st = (.error .alreadyRunning, st)) ∧
    (st.running = false → (initOutputsRun env.outputCfgs).2 = false →
      startGo env st = (.error .outputsInit,
        { st with
          running := true
          outputs := (initOutputsRun env.outputCfgs).1
          openSinks := (initOutputsRun env.outputCfgs).1 })) ∧
    (st.running = false → (initOutputsRun env.outputCfgs).2 = true →
      env.connNewOk = false →
      startGo env st = (.error .connInit,
        { st with
          running := true
          outputs := (initOutputsRun env.outputCfgs).1
          openSinks := [] })) ∧
    (st.running = false → (initOutputsRun env.outputCfgs).2 = true →
      env.connNewOk = true → env.connectOk = false →
      startGo env st = (.error .connectFail,
        { st with
          running := true
          outputs := (initOutputsRun env.outputCfgs).1
          openSinks := [] })) ∧
    (st.running = false → (initOutputsRun env.outputCfgs).2 = true →
      env.connNewOk = true → env.connectOk = true →
      startGo env st = (.ok (),
        { st with
          running := true
          outputs := (initOutputsRun env.outputCfgs).1
          openSinks := (initOutputsRun env.outputCfgs).1 })) := by
  rcases hio : initOutputsRun env.outputCfgs with ⟨built, ok⟩
  refine ⟨?_, ?_, ?_, ?_, ?_⟩
  · intro hrun
    simp [startGo, hrun]
  · intro hrun hok
    simp at hok
    subst hok
    simp [startGo, hrun, hio]
  · intro hrun hok hcn
    simp at hok
    subst hok
    simp [startGo, hrun, hio, hcn]
  · intro hrun hok hcn hct
    simp at hok
    subst hok
    simp [startGo, hrun, hio, hcn, hct]
  · intro hrun hok hcn hct
    simp at hok
    subst hok
    simp [startGo, hrun, hio, hcn, hct]

/-- Witness for C8 (amended), one concrete instantiation per branch. -/
theorem startGo_spec_witness :
    (startGo { outputCfgs := [], connNewOk := true, connectOk := true }
        { running := true } = (.error .alreadyRunning, { running := true })) ∧
    (startGo
      { outputCfgs := [{ Enabled := true, BuildOk := true },
          { Enabled := true, BuildOk := false }]
        connNewOk := true
        connectOk := true } {} =
      (.error .outputsInit, { running := true, outputs := [0], openSinks := [0] })) ∧
    (startGo
      { outputCfgs := [{ Enabled := true, BuildOk := true }]
        connNewOk := false
        connectOk := true } {} =
      (.error .connInit, { running := true, outputs := [0], openSinks := [] })) ∧
    (startGo
      { outputCfgs := [{ Enabled := true, BuildOk := true }]
        connNewOk := true
        connectOk := false } {} =
      (.error .connectFail, { running := true, outputs := [0], openSinks := [] })) ∧
    (startGo
      { outputCfgs := [{ Enabled := true, BuildOk := true }]
        connNewOk := true
        connectOk := true } {} =
      (.ok (), { running := true, outputs := [0], openSinks := [0] })) := by
  refine ⟨(startGo_spec _ _).1 rfl, ?_, ?_, ?_, ?_⟩
  · exact ((startGo_spec _ _).2.1 rfl rfl)
  · exact ((startGo_spec _ _).2.2.1 rfl rfl rfl)
  · exact ((startGo_spec _ _).2.2.2.1 rfl rfl rfl rfl)
  · exact ((startGo_spec _ _).2.2.2.2 rfl rfl rfl rfl)

/-! ## Apprise sink (`internal/output/apprise.go`) -/

/-- One hexadecimal digit, lowercase (as `%x` prints). -/
def hexDigit (n : Nat) : Char :=
  if n < 10 then Char.ofNat (48 + n) else Char.ofNat (87 + n)

/-- `fmt.Sprintf("%08x", n)` for a `uint32` value: eight lowercase hex
digits, zero-padded. -/
def hex8 (n : Nat) : String :=
  ((List.range 8).map (fun i => hexDigit (n / 16 ^ (7 - i) % 16))).asString

example : hex8 0xAABBCCDD = "aabbccdd" := rfl
example : hex8 0x11111111 = "11111111" := rfl
example : hex8 5 = "00000005" := rfl

/-- `Apprise.formatTitle`: start from `"!%08x"` of the sender, replace it
with the sender's long name when a node-info snapshot with user data is
attached, falling back to the short name when the long name is empty;
prefix with `"Meshtastic: "`. -/
def formatTitle (msg : Packet) : String :=
  let fromNode := "!" ++ hex8 msg.From
  let fromNode :=
    match msg.FromNode with
    | some ni =>
      match ni.User with
      | some u => if u.LongName = "" then u.ShortName else u.LongName
      | none => fromNode
    | none => fromNode
  "Meshtastic: " ++ fromNode

/-- Counterexample for C9 as stated: a packet whose attached user snapshot
has empty long and short names.  The title is `"Meshtastic: "` — the code
never falls back to the `!hex` node id once a user snapshot exists, so the
claimed third-level fallback does not happen. -/
theorem formatTitle_empty_names :
    formatTitle
      { From := 0xAABBCCDD
        FromNode := some { Num := 0xAABBCCDD, User := some {} } } = "Meshtastic: " ∧
    formatTitle
      { From := 0xAABBCCDD
        FromNode := some { Num := 0xAABBCCDD, User := some {} } } ≠
      "Meshtastic: " ++ ("!" ++ hex8 0xAABBCCDD) :=
  ⟨rfl, by decide⟩

/-- C9 (amended): the Apprise notification title is `"Meshtastic: "`
followed by the sender's long name; if the long name is empty, the short
name (even when it is empty too); the `"!"` + 8-hex-digit node id is used
only when the packet carries no node-info/user snapshot. -/
theorem formatTitle_spec (msg : Packet) (ni : NodeInfo) (u : User) :
    (msg.FromNode = none → formatTitle msg = "Meshtastic: " ++ ("!" ++ hex8 msg.From)) ∧
    (msg.FromNode = some ni → ni.User = none →
      formatTitle msg = "Meshtastic: " ++ ("!" ++ hex8 msg.From)) ∧
    (msg.FromNode = some ni → ni.User = some u → u.LongName ≠ "" →
      formatTitle msg = "Meshtastic: " ++ u.LongName) ∧
    (msg.FromNode = some ni → ni.User = some u → u.LongName = "" →
      formatTitle msg = "Meshtastic: " ++ u.ShortName) := by
  refine ⟨?_, ?_, ?_, ?_⟩
  · intro h
    simp [formatTitle, h]
  · intro h hu
    simp [formatTitle, h, hu]
  · intro h hu hl
    simp [formatTitle, h, hu, hl]
  · intro h hu hl
    simp [formatTitle, h, hu, hl]

/-- Witness for C9 (amended), one instantiation per branch. -/
theorem formatTitle_spec_witness :
    (formatTitle { From := 5 } = "Meshtastic: " ++ ("!" ++ hex8 5)) ∧
    (formatTitle { From := 5, FromNode := some { Num := 5 } } =
      "Meshtastic: " ++ ("!" ++ hex8 5)) ∧
    (formatTitle
      { From := 5
        FromNode := some
          { Num := 5
            User := some { LongName := "Base", ShortName := "BS" } } } =
      "Meshtastic: " ++ "Base") ∧
    (formatTitle
      { From := 5
        FromNode := some { Num := 5, User := some { ShortName := "BS" } } } =
      "Meshtastic: " ++ "BS") := by
  refine ⟨?_, ?_, ?_, ?_⟩
  · exact (formatTitle_spec { From := 5 } {} {}).1 rfl
  · exact (formatTitle_spec _ { Num := 5 } {}).2.1 rfl rfl
  · exact (formatTitle_spec _
      { Num := 5
        User := some { LongName := "Base", ShortName := "BS" } }
      { LongName := "Base", ShortName := "BS" }).2.2.1 rfl rfl (by decide)
  · exact (formatTitle_spec _ { Num := 5, User := some { ShortName := "BS" } }
      { ShortName := "BS" }).2.2.2 rfl rfl rfl

end Relay
